import Mathlib

/-!
A shallow embedding of the query-answering backend (`app.py`, `utils.py`)
and proofs about its behaviour.  Network and language-model effects are
modelled by explicit outcome values supplied by an environment record, so
every embedded operation is a total, executable Lean function.
-/

namespace Backend

/-- Python string slicing `s[:n]`: the first `n` characters. -/
def pyTake (n : Nat) (s : String) : String := ⟨s.data.take n⟩

/-- Python `str.strip()`: leading and trailing whitespace removed. -/
def pyStrip (s : String) : String :=
  ⟨((s.data.dropWhile Char.isWhitespace).reverse.dropWhile Char.isWhitespace).reverse⟩

/-- An article record as accumulated by the orchestrator:
`{"url": url, "content": content}`. -/
structure Article where
  url : String
  content : String
deriving Repr, DecidableEq

/-! ### `utils.search_articles`

The Serper response is modelled by its status code and, when the body is
JSON, the optional `organic` array; each organic entry is reduced to its
optional `link` field (the only field the code reads). -/

/-- A search-provider HTTP response.  `organic = none` models a body whose
JSON has no `organic` key; an entry `none` models an organic object without
a `link` field. -/
structure SearchResponse where
  status : Nat
  organic : Option (List (Option String))
deriving Repr, DecidableEq

/-- Outcome of the network interaction in `search_articles`: a response, or
an exception anywhere in the `try` block. -/
inductive SearchOutcome where
  | response (r : SearchResponse)
  | transportError
deriving Repr, DecidableEq

/-- `utils.search_articles`.  Python `None` — produced by falling off the
end of the function on a 200 response without an `organic` key — is
`Option.none`; a returned list `l` is `some l`. -/
def search_articles (net : SearchOutcome) : Option (List String) :=
  match net with
  | .transportError => some []
  | .response r =>
    if r.status = 200 then
      match r.organic with
      | some entries => some ((entries.filterMap id).take 3)
      | none => none
    else
      some []

/-! ### `utils.fetch_article_content`

The parsed HTML document is a forest of nodes; `BeautifulSoup` operations
are embedded structurally: `decompose` of the unwanted tags prunes their
subtrees, `find_all('p')` collects paragraph nodes in document order
(outer before nested), `get_text()` concatenates the text leaves of a
subtree. -/

mutual
/-- A parsed HTML node: a text leaf or an element with a tag and children. -/
inductive HtmlNode where
  | text (s : String)
  | elem (tag : String) (children : HtmlForest)
deriving Repr, DecidableEq
/-- A sequence of sibling HTML nodes. -/
inductive HtmlForest where
  | nil
  | cons (head : HtmlNode) (tail : HtmlForest)
deriving Repr, DecidableEq
end

/-- The tags removed before text extraction:
`soup(['script', 'style', 'nav', 'header', 'footer'])` + `decompose`. -/
def bannedTags : List String := ["script", "style", "nav", "header", "footer"]

mutual
/-- `element.decompose()` applied to every unwanted element: a node with a
banned tag is dropped with its whole subtree. -/
def pruneNode : HtmlNode → Option HtmlNode
  | .text s => some (.text s)
  | .elem tag children =>
    if bannedTags.contains tag then none
    else some (.elem tag (pruneForest children))
/-- `pruneNode` mapped over a forest, dropping removed nodes. -/
def pruneForest : HtmlForest → HtmlForest
  | .nil => .nil
  | .cons h t =>
    match pruneNode h with
    | some h2 => .cons h2 (pruneForest t)
    | none => pruneForest t
end

mutual
/-- `node.get_text()`: the concatenation of all text leaves of a subtree,
in document order. -/
def nodeText : HtmlNode → String
  | .text s => s
  | .elem _ children => forestText children
/-- `get_text` over a forest of siblings. -/
def forestText : HtmlForest → String
  | .nil => ""
  | .cons h t => nodeText h ++ forestText t
end

mutual
/-- `soup.find_all('p')` restricted to one subtree: every `p` element in
document order, outer elements before their descendants. -/
def nodeParagraphs : HtmlNode → List HtmlNode
  | .text _ => []
  | .elem tag children =>
    (if tag = "p" then [HtmlNode.elem tag children] else []) ++ forestParagraphs children
/-- `find_all('p')` over a forest of siblings. -/
def forestParagraphs : HtmlForest → List HtmlNode
  | .nil => []
  | .cons h t => nodeParagraphs h ++ forestParagraphs t
end

/-- Outcome of `requests.get` + parsing in `fetch_article_content`: a
parsed document, or any exception (network, timeout, non-2xx status). -/
inductive FetchOutcome where
  | failure
  | page (doc : HtmlForest)
deriving Repr

/-- `utils.fetch_article_content`: on success, remove the unwanted
elements, join the stripped texts of all `p` elements (skipping those that
strip to the empty string) with single spaces, and keep the first 5000
characters; on any exception return `""`. -/
def fetch_article_content (net : FetchOutcome) : String :=
  match net with
  | .failure => ""
  | .page doc =>
    let cleaned := pruneForest doc
    let paragraphs := forestParagraphs cleaned
    let texts := (paragraphs.map (fun p => pyStrip (nodeText p))).filter (fun s => !s.isEmpty)
    pyTake 5000 (String.intercalate " " texts)

/-! ### `utils.concatenate_content` -/

/-- The f-string `f"Article {idx}:\n{content}\n\n"`. -/
def articleBlock (idx : Nat) (content : String) : String :=
  "Article " ++ toString idx ++ ":\n" ++ content ++ "\n\n"

/-- `utils.concatenate_content`: one block per article, numbered from 1 by
`enumerate(articles, 1)`, joined by `'\n'.join`. -/
def concatenate_content (articles : List Article) : String :=
  String.intercalate "\n" (articles.enum.map (fun ia => articleBlock (ia.1 + 1) ia.2.content))

/-! ### `utils.LLMManager` and `utils.generate_answer`

A language-model response object is modelled by its optional `content`
attribute, optional `text` attribute, and its `str(...)` coercion.  Each
client method call either returns a response, raises `AttributeError`
(the capability-mismatch case the fallback chain dispatches on), or raises
some other exception. -/

/-- A response object returned by a client method: `hasattr(r, 'content')`
and `hasattr(r, 'text')` are modelled by the `Option`s, `str(r)` by
`strForm`. -/
structure LLMResponse where
  contentField : Option String
  textField : Option String
  strForm : String
deriving Repr, DecidableEq

/-- Outcome of one client method call. -/
inductive CallResult where
  | ok (r : LLMResponse)
  | attrError
  | otherError
deriving Repr, DecidableEq

/-- The behaviour of a `ChatGroq` client: the three invocation shapes the
fallback chain tries.  Messages are `(role, content)` pairs. -/
structure LLMClient where
  invoke : List (String × String) → CallResult
  complete : String → CallResult
  predict : String → CallResult

/-- Python falsiness of the optional credential string
(`if not GROQ_API_KEY`): absent or empty. -/
def pyFalsyStr (s : Option String) : Bool :=
  match s with
  | none => true
  | some t => t.isEmpty

/-- `LLMManager.get_instance`, with the class attribute `_instance` passed
and returned explicitly.  `chatGroq` is the client that
`ChatGroq(api_key=..., model_name=...)` would construct; an `Except.error`
is the `ValueError` raised when the credential is missing at first use. -/
def LLMManager.get_instance (inst : Option LLMClient) (groqKey : Option String)
    (chatGroq : LLMClient) : Except String (LLMClient × Option LLMClient) :=
  match inst with
  | some c => .ok (c, some c)
  | none =>
    if pyFalsyStr groqKey then
      .error "GROQ_API_KEY not found in environment variables"
    else
      .ok (chatGroq, some chatGroq)

/-- The fixed system instruction of `generate_answer`, verbatim. -/
def system_message : String :=
  "
        You are an intelligent Web Search Content Summarizer, specialized in extracting, analyzing, and presenting information from web search results. Your primary goal is to provide clear, concise, and relevant summaries while maintaining the accuracy of the original content.
PRIMARY FUNCTIONS:

Content Synthesis


Extract key information from multiple search results
Identify main themes and crucial points
Remove redundant information
Present a unified, coherent summary
Highlight unique insights from different sources


Smart Summarization


Prioritize recent and relevant information
Focus on answering the user's specific question
Remove fluff and marketing language
Maintain the original meaning while condensing text
Include essential details and context


Information Organization


Structure information in order of relevance
Group related points together
Use bullet points for better readability
Present contrasting viewpoints when present
Highlight key statistics or data points


Source Integration


Link information to respective sources
Indicate when multiple sources confirm a point
Note any significant disagreements between sources
Provide context for source reliability when relevant

RESPONSE FORMAT:

Quick Summary (2-3 sentences)
[Provide the most important information that directly answers the query]
Key Points


[Main point 1]
[Main point 2]
[Main point 3]
...


Detailed Insights
[Expanded information organized by theme or relevance]


Theme/Topic 1:
• Detail
• Context
• Relevant data
Theme/Topic 2:
• [Similar structure]




HANDLING DIFFERENT QUERY TYPES:

Product/Service Queries


Focus on key features and benefits
Include relevant pricing information
Highlight user experiences and reviews
Note any common issues or limitations
Compare with alternatives if available


How-to/Instructions


Present steps in logical order
Include important prerequisites
Note common pitfalls or tips
Mention alternative methods if available
Add relevant safety warnings if applicable


News/Current Events


Prioritize most recent information
Include important background context
Note ongoing developments
Present different perspectives
Indicate information currency


Comparisons


Create clear comparison points
Highlight key differences
Note similarities when relevant
Include pros and cons
Mention context-dependent factors

QUALITY GUIDELINES:

Accuracy


Maintain factual accuracy
Cross-reference important claims
Note any uncertainties
Avoid exaggeration
Correct any contradictions


Relevance


Stay focused on the query
Remove irrelevant information
Prioritize user's specific needs
Include contextual information only when helpful


Clarity


Use simple, clear language
Define technical terms when needed
Break down complex concepts
Use examples for difficult ideas
Maintain logical flow


Conciseness


Remove redundant information
Use precise language
Break up long paragraphs
Prioritize essential information
Keep summaries focused

RESPONSE CHECKLIST:
✓ Directly answers the main question
✓ Includes relevant key points
✓ Removes redundant information
✓ Maintains original meaning
✓ Provides clear structure
✓ Links to sources
✓ Uses simple language
✓ Highlights important data
✓ Notes any uncertainties
✓ Stays focused on query
EXAMPLE RESPONSE:
Query: \"What are the latest developments in wireless charging technology?\"
Quick Summary:
Recent advances in wireless charging focus on extended range charging, faster charging speeds, and multi-device support. The technology has seen significant improvements in efficiency and adoption across various industries.
Key Points:

Extended range charging up to 30 feet now possible
New standards support 15W+ charging speeds
Multi-device charging mats becoming mainstream
Vehicle wireless charging gaining traction

Detailed Insights:
Recent Advancements:
• Long-range wireless power transmission using focused beams
• Enhanced efficiency through improved coil design
• Integration with common furniture and surfaces
Industry Adoption:
• Major smartphone manufacturers implementing new standards
• Automotive industry developing universal charging pads
• Public spaces beginning to install wireless charging infrastructure


Remember to:

Adapt summary length to query complexity
Include only relevant information
Maintain objective tone
Verify key claims across sources
Present information in digestible chunks
        "

/-- The f-string user message of `generate_answer`. -/
def user_message (content query : String) : String :=
  "Based on the following articles, please answer this question: " ++ query ++
  "\n\n        Articles:\n        " ++ content ++
  "\n\n        Please provide a clear, concise answer based on the information in the articles above.\n        If the information is not directly available in the articles, please say so."

/-- The two-message instruction list passed to `llm.invoke`. -/
def messagesFor (content query : String) : List (String × String) :=
  [("system", system_message), ("user", user_message content query)]

/-- The fixed soft-failure string of `generate_answer`. -/
def fallbackMessage : String := "Sorry, I couldn't generate an answer at this time."

/-- `utils.generate_answer`.  The nested `try`/`except` structure of the
source maps to the matches: a non-`AttributeError` from `invoke` or
`complete`, any error from `predict`, and the `ValueError` from
`get_instance` all reach an `except Exception` handler that returns the
fallback string, so the function is total. -/
def generate_answer (instState : Option LLMClient) (groqKey : Option String)
    (chatGroq : LLMClient) (content query : String) : String :=
  match LLMManager.get_instance instState groqKey chatGroq with
  | .error _ => fallbackMessage
  | .ok (llm, _) =>
    match llm.invoke (messagesFor content query) with
    | .ok r =>
      match r.contentField with
      | some c => c
      | none => r.strForm
    | .otherError => fallbackMessage
    | .attrError =>
      match llm.complete (user_message content query) with
      | .ok r =>
        match r.textField with
        | some t => t
        | none => r.strForm
      | .otherError => fallbackMessage
      | .attrError =>
        match llm.predict (user_message content query) with
        | .ok r => r.strForm
        | .attrError => fallbackMessage
        | .otherError => fallbackMessage

/-! ### `app.query` (the active `/query` handler)

The request body is `none` when `request.get_json()` yields a falsy value,
otherwise the dict as an association list.  The environment bundles the
network behaviours and the language-model state.  A `CallLog` records
which collaborators the handler invoked, to state the
no-network / never-invoked parts of the spec. -/

/-- Everything external the handler touches: the search provider's
behaviour per query, the fetch outcome per URL, and the language-model
singleton state (`LLMManager._instance`, `GROQ_API_KEY`, the constructor
result). -/
structure Env where
  searchNet : String → SearchOutcome
  fetchNet : String → FetchOutcome
  llmInstState : Option LLMClient
  groqKey : Option String
  chatGroq : LLMClient

/-- The handler's observable HTTP result: 400, 404, or 200 with the JSON
payload fields. -/
inductive HandlerResult where
  | badRequest (error : String)
  | notFound (error : String)
  | ok (answer : String) (sources : List String)
deriving Repr, DecidableEq

/-- Which collaborators a handler run invoked: whether `search_articles`
was called, the URLs passed to `fetch_article_content`, and whether
`generate_answer` was called. -/
structure CallLog where
  searchCalled : Bool
  fetchCalls : List String
  synthCalled : Bool
deriving Repr, DecidableEq

/-- `'query' in data` / `data['query']` on the parsed JSON dict. -/
def lookupQuery (d : List (String × String)) : Option String :=
  (d.find? (fun kv => kv.1 == "query")).map Prod.snd

/-- The per-URL fetch loop of the handler: fetch each URL and keep an
`Article` exactly when the content is truthy (non-empty).  The loop's
`except` clause is unreachable because `fetch_article_content` catches all
its own exceptions, so each iteration is the `if content:` test alone. -/
def fetchLoop (env : Env) : List String → List Article
  | [] => []
  | url :: rest =>
    let content := fetch_article_content (env.fetchNet url)
    if content.isEmpty then fetchLoop env rest
    else { url := url, content := content } :: fetchLoop env rest

/-- The active `app.query` handler.  `if not data or 'query' not in data`
is the two `badRequest` branches; `if not article_urls` is falsy for both
Python `None` and `[]`; the final 200 response carries the synthesized
answer and the accumulated articles' URLs. -/
def query_handler (env : Env) (data : Option (List (String × String))) :
    HandlerResult × CallLog :=
  match data with
  | none => (.badRequest "No query provided", ⟨false, [], false⟩)
  | some d =>
    match lookupQuery d with
    | none => (.badRequest "No query provided", ⟨false, [], false⟩)
    | some query_text =>
      match search_articles (env.searchNet query_text) with
      | none => (.notFound "No articles found", ⟨true, [], false⟩)
      | some urls =>
        if urls.isEmpty then
          (.notFound "No articles found", ⟨true, [], false⟩)
        else
          let article_content := fetchLoop env urls
          if article_content.isEmpty then
            (.notFound "Could not fetch any article content", ⟨true, urls, false⟩)
          else
            let combined_content := concatenate_content article_content
            let answer := generate_answer env.llmInstState env.groqKey env.chatGroq
              combined_content query_text
            (.ok answer (article_content.map Article.url), ⟨true, urls, true⟩)

/-! ## Helper lemmas -/

theorem pyTake_length_le (n : Nat) (s : String) : (pyTake n s).length ≤ n := by
  show (s.data.take n).length ≤ n
  exact List.length_take_le n s.data

mutual
/-- No element anywhere in the node carries one of the removed tags. -/
def nodeBannedFree : HtmlNode → Bool
  | .text _ => true
  | .elem tag children => !bannedTags.contains tag && forestBannedFree children
/-- `nodeBannedFree` over a forest of siblings. -/
def forestBannedFree : HtmlForest → Bool
  | .nil => true
  | .cons h t => nodeBannedFree h && forestBannedFree t
end

mutual
theorem pruneNode_bannedFree : ∀ (n n2 : HtmlNode), pruneNode n = some n2 →
    nodeBannedFree n2 = true
  | .text s, n2, e => by
    simp only [pruneNode, Option.some.injEq] at e
    subst e; rfl
  | .elem tag children, n2, e => by
    simp only [pruneNode] at e
    split at e
    · exact Option.noConfusion e
    · next hb =>
      injection e with e
      subst e
      simp only [Bool.not_eq_true] at hb
      simp only [nodeBannedFree, hb, Bool.not_false, Bool.true_and]
      exact pruneForest_bannedFree children
theorem pruneForest_bannedFree : ∀ (l : HtmlForest), forestBannedFree (pruneForest l) = true
  | .nil => rfl
  | .cons h t => by
    cases hp : pruneNode h with
    | none => simpa [pruneForest, hp] using pruneForest_bannedFree t
    | some h2 =>
      simp only [pruneForest, hp, forestBannedFree, Bool.and_eq_true]
      exact ⟨pruneNode_bannedFree h h2 hp, pruneForest_bannedFree t⟩
end

/-- The per-article blocks named by the spec: 1-based numbering carried in
an explicit counter. -/
def numberedBlocks : Nat → List Article → List String
  | _, [] => []
  | n, a :: rest => articleBlock n a.content :: numberedBlocks (n + 1) rest

theorem enumFrom_map_blocks (k : Nat) (arts : List Article) :
    (List.enumFrom k arts).map (fun ia => articleBlock (ia.1 + 1) ia.2.content) =
      numberedBlocks (k + 1) arts := by
  induction arts generalizing k with
  | nil => rfl
  | cons a rest ih => simp [List.enumFrom, numberedBlocks, ih]

theorem concatenate_content_eq_numberedBlocks (arts : List Article) :
    concatenate_content arts = String.intercalate "\n" (numberedBlocks 1 arts) := by
  show String.intercalate "\n" ((List.enumFrom 0 arts).map _) = _
  rw [enumFrom_map_blocks 0 arts]

theorem numberedBlocks_congr (n : Nat) (a b : List Article)
    (h : a.map Article.content = b.map Article.content) :
    numberedBlocks n a = numberedBlocks n b := by
  induction a generalizing b n with
  | nil => cases b with
    | nil => rfl
    | cons _ _ => simp at h
  | cons x rest ih =>
    cases b with
    | nil => simp at h
    | cons y brest =>
      simp only [List.map_cons, List.cons.injEq] at h
      simp [numberedBlocks, h.1, ih _ brest h.2]

/-! ## Claims -/

/-- C4: `fetch_article_content` always returns at most 5000 characters and
never draws text from `script`, `style`, `nav`, `header` or `footer`
elements (the pruned document contains no such element); on a successful
fetch the result is the stripped texts of the page's `p` elements, with
empty-after-stripping paragraphs skipped, joined by single spaces and
truncated after joining to the first 5000 characters. -/
theorem fetch_article_content_spec (net : FetchOutcome) (doc : HtmlForest) :
    (fetch_article_content net).length ≤ 5000 ∧
    forestBannedFree (pruneForest doc) = true ∧
    (net = .page doc →
      fetch_article_content net =
        pyTake 5000 (String.intercalate " "
          (((forestParagraphs (pruneForest doc)).map (fun p => pyStrip (nodeText p))).filter
            (fun s => !s.isEmpty)))) := by
  refine ⟨?_, pruneForest_bannedFree doc, fun h => by subst h; rfl⟩
  cases net with
  | failure => simp [fetch_article_content]
  | page d => exact pyTake_length_le 5000 _

/-- A concrete page used by the C4 witness: one `p` element and one
`script` element. -/
def sampleDoc : HtmlForest :=
  .cons (.elem "p" (.cons (.text "  hi  ") .nil))
    (.cons (.elem "script" (.cons (.text "bad") .nil)) .nil)

/-- C4 witness: the theorem applied to a concrete page holding one `p`
element and one `script` element. -/
theorem fetch_article_content_spec_witness :
    (fetch_article_content (FetchOutcome.page sampleDoc)).length ≤ 5000 ∧
    forestBannedFree (pruneForest sampleDoc) = true ∧
    fetch_article_content (FetchOutcome.page sampleDoc) =
      pyTake 5000 (String.intercalate " "
        (((forestParagraphs (pruneForest sampleDoc)).map
          (fun p => pyStrip (nodeText p))).filter (fun s => !s.isEmpty))) :=
  ⟨(fetch_article_content_spec (FetchOutcome.page sampleDoc) sampleDoc).1,
   (fetch_article_content_spec (FetchOutcome.page sampleDoc) sampleDoc).2.1,
   (fetch_article_content_spec (FetchOutcome.page sampleDoc) sampleDoc).2.2 rfl⟩

/-- C6: `concatenate_content` produces for the article at 1-based position
N the block `"Article N:\n<content>\n\n"`, joins the blocks with a single
newline in input order, yields `""` on the empty list, and is
deterministic. -/
theorem concatenate_content_spec (arts : List Article) :
    concatenate_content arts = String.intercalate "\n" (numberedBlocks 1 arts) ∧
    concatenate_content ([] : List Article) = "" ∧
    (∀ arts2, arts = arts2 → concatenate_content arts = concatenate_content arts2) :=
  ⟨concatenate_content_eq_numberedBlocks arts, rfl, fun _ h => h ▸ rfl⟩

/-- C6 witness: the theorem applied to a concrete two-article list,
with the determinism hypothesis discharged. -/
theorem concatenate_content_spec_witness :
    concatenate_content [⟨"https://a", "A"⟩, ⟨"https://b", "B"⟩] =
      String.intercalate "\n" (numberedBlocks 1 [⟨"https://a", "A"⟩, ⟨"https://b", "B"⟩]) ∧
    concatenate_content [⟨"https://a", "A"⟩, ⟨"https://b", "B"⟩] =
      concatenate_content [⟨"https://a", "A"⟩, ⟨"https://b", "B"⟩] ∧
    concatenate_content [⟨"https://a", "A"⟩, ⟨"https://b", "B"⟩] =
      "Article 1:\nA\n\n\nArticle 2:\nB\n\n" :=
  ⟨(concatenate_content_spec _).1,
   (concatenate_content_spec _).2.2 _ rfl, by decide⟩

/-- C10: the aggregated document depends only on the articles' `content`
fields and their order, never on the `url` fields. -/
theorem concatenate_content_url_independent (a b : List Article)
    (h : a.map Article.content = b.map Article.content) :
    concatenate_content a = concatenate_content b := by
  rw [concatenate_content_eq_numberedBlocks, concatenate_content_eq_numberedBlocks,
    numberedBlocks_congr 1 a b h]

/-- C10 witness: two single-article lists with different URLs but equal
contents aggregate identically. -/
theorem concatenate_content_url_independent_witness :
    ([⟨"https://a", "same text"⟩] : List Article).map Article.content =
      ([⟨"https://b", "same text"⟩] : List Article).map Article.content ∧
    concatenate_content [⟨"https://a", "same text"⟩] =
      concatenate_content [⟨"https://b", "same text"⟩] :=
  ⟨rfl, concatenate_content_url_independent _ _ rfl⟩
/-! ## Handler lemmas -/

theorem isEmpty_false_of_ne_nil {α : Type} {l : List α} (h : l ≠ []) : l.isEmpty = false := by
  cases l with
  | nil => exact absurd rfl h
  | cons _ _ => rfl

/-- Whether the handler keeps a URL: its fetched content is truthy
(non-empty). -/
def goodFetch (env : Env) (u : String) : Bool :=
  !(fetch_article_content (env.fetchNet u)).isEmpty

theorem fetchLoop_map_url (env : Env) (urls : List String) :
    (fetchLoop env urls).map Article.url = urls.filter (goodFetch env) := by
  induction urls with
  | nil => rfl
  | cons u rest ih =>
    simp only [fetchLoop, List.filter_cons, goodFetch]
    by_cases h : (fetch_article_content (env.fetchNet u)).isEmpty = true
    · simp [h, ih]
    · have h2 : (fetch_article_content (env.fetchNet u)).isEmpty = false := by
        simpa using h
      simp [h2, ih]

theorem fetchLoop_eq_nil_iff (env : Env) (urls : List String) :
    fetchLoop env urls = [] ↔ urls.filter (goodFetch env) = [] := by
  induction urls with
  | nil => simp [fetchLoop]
  | cons u rest ih =>
    simp only [fetchLoop, List.filter_cons, goodFetch]
    by_cases h : (fetch_article_content (env.fetchNet u)).isEmpty = true
    · simp [h, ih]
    · have h2 : (fetch_article_content (env.fetchNet u)).isEmpty = false := by
        simpa using h
      simp [h2]

/-- A client on which every invocation shape raises `AttributeError`. -/
def stubClient : LLMClient :=
  ⟨fun _ => .attrError, fun _ => .attrError, fun _ => .attrError⟩

/-- An environment whose search provider answers 200 with an empty
`organic` array. -/
def emptySearchEnv : Env where
  searchNet := fun _ => .response ⟨200, some []⟩
  fetchNet := fun _ => .failure
  llmInstState := none
  groqKey := none
  chatGroq := stubClient

/-- An environment whose search provider answers 200 with a body without
the `organic` key. -/
def noOrganicEnv : Env where
  searchNet := fun _ => .response ⟨200, none⟩
  fetchNet := fun _ => .failure
  llmInstState := none
  groqKey := none
  chatGroq := stubClient

/-- A one-paragraph page used by concrete pipeline runs. -/
def demoPage : HtmlForest :=
  .cons (.elem "p" (.cons (.text "alpha") .nil)) .nil

/-- An environment with two search hits of which only the first fetch
yields content. -/
def demoEnv : Env where
  searchNet := fun _ => .response ⟨200, some [some "https://a", none, some "https://b"]⟩
  fetchNet := fun u => if u == "https://a" then .page demoPage else .failure
  llmInstState := some stubClient
  groqKey := some "k"
  chatGroq := stubClient

/-! ## Claims about `search_articles` -/

/-- C7 counterexample: a 200 response whose JSON body has no `organic`
key makes `search_articles` return Python `None`, not the empty
sequence. -/
theorem search_articles_no_organic_not_nil :
    search_articles (.response ⟨200, none⟩) = none ∧
    search_articles (.response ⟨200, none⟩) ≠ some [] :=
  ⟨rfl, by decide⟩

/-- C7 (amended): on a 200 response whose body has an `organic` array,
`search_articles` returns the `link` values of the entries that have one,
in provider order, truncated to the first 3; on a non-200 status or a
transport failure it returns the empty sequence.  (A 200 response without
`organic` instead returns Python `None`.) -/
theorem search_articles_spec (entries : List (Option String)) (st : Nat)
    (org : Option (List (Option String))) (hst : st ≠ 200) :
    search_articles (.response ⟨200, some entries⟩) =
      some ((entries.filterMap id).take 3) ∧
    ((entries.filterMap id).take 3).length ≤ 3 ∧
    List.Sublist ((entries.filterMap id).take 3) (entries.filterMap id) ∧
    search_articles (.response ⟨st, org⟩) = some [] ∧
    search_articles .transportError = some [] := by
  refine ⟨rfl, ?_, List.take_sublist 3 _, ?_, rfl⟩
  · exact List.length_take_le 3 _
  · simp [search_articles, hst]

/-- C7 witness: the amended theorem at a concrete organic array and a
concrete 500 status. -/
theorem search_articles_spec_witness :
    (500 : Nat) ≠ 200 ∧
    search_articles (.response ⟨200, some [some "https://x", none, some "https://y"]⟩) =
      some (([some "https://x", none, some "https://y"].filterMap id).take 3) ∧
    search_articles (.response ⟨500, none⟩) = some [] :=
  ⟨by decide,
   (search_articles_spec [some "https://x", none, some "https://y"] 500 none (by decide)).1,
   (search_articles_spec [] 500 none (by decide)).2.2.2.1⟩

/-- C9: a 200 search response without the `organic` key makes
`search_articles` return Python `None` rather than a list, and the
handler's falsiness check turns that into `NotFound` "No articles found",
without any fetch or synthesis. -/
theorem search_none_yields_notFound (env : Env) (d : List (String × String)) (q : String)
    (hq : lookupQuery d = some q)
    (hs : env.searchNet q = .response ⟨200, none⟩) :
    search_articles (env.searchNet q) = none ∧
    query_handler env (some d) = (.notFound "No articles found", ⟨true, [], false⟩) := by
  have h1 : search_articles (env.searchNet q) = none := by rw [hs]; rfl
  exact ⟨h1, by simp [query_handler, hq, h1]⟩

/-- C9 witness: the theorem on a concrete environment whose provider
answers 200 without `organic`. -/
theorem search_none_yields_notFound_witness :
    lookupQuery [("query", "q")] = some "q" ∧
    noOrganicEnv.searchNet "q" = .response ⟨200, none⟩ ∧
    search_articles (noOrganicEnv.searchNet "q") = none ∧
    query_handler noOrganicEnv (some [("query", "q")]) =
      (.notFound "No articles found", ⟨true, [], false⟩) :=
  ⟨rfl, rfl,
   (search_none_yields_notFound noOrganicEnv [("query", "q")] "q" rfl rfl).1,
   (search_none_yields_notFound noOrganicEnv [("query", "q")] "q" rfl rfl).2⟩

/-! ## Claims about `LLMManager` and `generate_answer` -/

/-- C8: with no cached instance and a missing (or empty) credential, the
first use of the singleton raises the configuration `ValueError`; a cached
instance is returned untouched regardless of the credential, so the error
can only arise at first use, and a present credential constructs the
client. -/
theorem get_instance_config_error (groqKey : Option String) (c chatGroq : LLMClient) :
    (pyFalsyStr groqKey = true →
      LLMManager.get_instance none groqKey chatGroq =
        .error "GROQ_API_KEY not found in environment variables") ∧
    (LLMManager.get_instance (some c) groqKey chatGroq = .ok (c, some c)) ∧
    (pyFalsyStr groqKey = false →
      LLMManager.get_instance none groqKey chatGroq = .ok (chatGroq, some chatGroq)) := by
  refine ⟨fun h => ?_, rfl, fun h => ?_⟩
  · simp [LLMManager.get_instance, h]
  · simp [LLMManager.get_instance, h]

/-- C8 witness: the missing-credential branch at a concrete client. -/
theorem get_instance_config_error_witness :
    pyFalsyStr none = true ∧
    LLMManager.get_instance none none stubClient =
      .error "GROQ_API_KEY not found in environment variables" :=
  ⟨rfl, (get_instance_config_error none stubClient stubClient).1 rfl⟩

/-- The whole fallback chain fails: `invoke` raises a non-capability
error, or raises `AttributeError` and `complete` raises a non-capability
error, or both raise `AttributeError` and `predict` does not return. -/
def chainFails (llm : LLMClient) (content query : String) : Prop :=
  llm.invoke (messagesFor content query) = .otherError ∨
  (llm.invoke (messagesFor content query) = .attrError ∧
    llm.complete (user_message content query) = .otherError) ∨
  (llm.invoke (messagesFor content query) = .attrError ∧
    llm.complete (user_message content query) = .attrError ∧
    ∀ r, llm.predict (user_message content query) ≠ .ok r)

/-- C5: `generate_answer` is a total function (the embedding returns a
string on every input, mirroring that no exception escapes), and any
internal failure — a missing credential at `get_instance`, or failure of
every method in the fallback chain, or a non-capability exception in the
chain — resolves to the literal fallback string. -/
theorem generate_answer_total_fallback (instState : Option LLMClient)
    (groqKey : Option String) (chatGroq : LLMClient) (content query : String) :
    ((∃ e, LLMManager.get_instance instState groqKey chatGroq = .error e) →
      generate_answer instState groqKey chatGroq content query = fallbackMessage) ∧
    (∀ llm st, LLMManager.get_instance instState groqKey chatGroq = .ok (llm, st) →
      chainFails llm content query →
      generate_answer instState groqKey chatGroq content query = fallbackMessage) := by
  constructor
  · rintro ⟨e, he⟩
    simp [generate_answer, he]
  · rintro llm st hok hc
    rcases hc with h1 | ⟨h1, h2⟩ | ⟨h1, h2, h3⟩
    · simp [generate_answer, hok, h1]
    · simp [generate_answer, hok, h1, h2]
    · cases hp : llm.predict (user_message content query) with
      | ok r => exact absurd hp (h3 r)
      | attrError => simp [generate_answer, hok, h1, h2, hp]
      | otherError => simp [generate_answer, hok, h1, h2, hp]

/-- C5 witness: a client raising `AttributeError` on every shape resolves
to the fallback string. -/
theorem generate_answer_total_fallback_witness :
    LLMManager.get_instance (some stubClient) none stubClient =
      .ok (stubClient, some stubClient) ∧
    chainFails stubClient "some content" "some query" ∧
    generate_answer (some stubClient) none stubClient "some content" "some query" =
      fallbackMessage :=
  ⟨rfl, Or.inr (Or.inr ⟨rfl, rfl, fun _ h => CallResult.noConfusion h⟩),
   (generate_answer_total_fallback (some stubClient) none stubClient
      "some content" "some query").2 stubClient (some stubClient) rfl
     (Or.inr (Or.inr ⟨rfl, rfl, fun _ h => CallResult.noConfusion h⟩))⟩

/-! ## Claims about the `/query` handler -/

/-- C1 counterexample: a body whose `query` value is the empty string is
not rejected — the handler proceeds to call `search_articles` (the log
records the search call) and answers `NotFound`, not `BadRequest`. -/
theorem empty_query_reaches_search :
    query_handler emptySearchEnv (some [("query", "")]) =
      (.notFound "No articles found", ⟨true, [], false⟩) ∧
    (query_handler emptySearchEnv (some [("query", "")])).2.searchCalled = true ∧
    (query_handler emptySearchEnv (some [("query", "")])).1 ≠
      .badRequest "No query provided" :=
  ⟨rfl, rfl, by decide⟩

/-- C1 (amended): a request whose JSON body is falsy or lacks the `query`
key gets `BadRequest` "No query provided" before any collaborator is
invoked; a present-but-empty `query` value is not caught by the
`'query' not in data` check and instead proceeds to the search call. -/
theorem query_handler_badRequest (env : Env) (data : Option (List (String × String)))
    (h : data = none ∨ ∃ d, data = some d ∧ lookupQuery d = none) :
    query_handler env data = (.badRequest "No query provided", ⟨false, [], false⟩) := by
  rcases h with h | ⟨d, hd, hq⟩
  · subst h; rfl
  · subst hd
    simp [query_handler, hq]

/-- C1 witness: the amended theorem on a body without the `query` key. -/
theorem query_handler_badRequest_witness :
    ((some [("q", "x")] : Option (List (String × String))) = none ∨
      ∃ d, (some [("q", "x")] : Option (List (String × String))) = some d ∧
        lookupQuery d = none) ∧
    query_handler emptySearchEnv (some [("q", "x")]) =
      (.badRequest "No query provided", ⟨false, [], false⟩) :=
  ⟨Or.inr ⟨[("q", "x")], rfl, rfl⟩,
   query_handler_badRequest emptySearchEnv (some [("q", "x")])
     (Or.inr ⟨[("q", "x")], rfl, rfl⟩)⟩

/-- C2: on a successful run — a body with a `query` value, a search that
returns a non-empty URL list, at least one fetch with non-empty content —
the handler returns 200 whose `sources` are exactly the URLs whose fetch
returned non-empty content, in search-result order (the filter of the
search list), and whose `answer` is exactly the synthesizer's output on
the aggregated document. -/
theorem pipeline_success (env : Env) (d : List (String × String)) (q : String)
    (urls : List String)
    (hq : lookupQuery d = some q)
    (hs : search_articles (env.searchNet q) = some urls)
    (hne : urls ≠ [])
    (hgood : urls.filter (goodFetch env) ≠ []) :
    query_handler env (some d) =
      (.ok (generate_answer env.llmInstState env.groqKey env.chatGroq
          (concatenate_content (fetchLoop env urls)) q)
        (urls.filter (goodFetch env)),
       ⟨true, urls, true⟩) := by
  have hFL : fetchLoop env urls ≠ [] := by
    rw [Ne, fetchLoop_eq_nil_iff]
    exact hgood
  have h1 : urls.isEmpty = false := isEmpty_false_of_ne_nil hne
  have h2 : (fetchLoop env urls).isEmpty = false := isEmpty_false_of_ne_nil hFL
  simp only [query_handler, hq, hs, h1, h2, Bool.false_eq_true, if_false,
    fetchLoop_map_url]

/-- C2 witness: a concrete run with two search hits of which only the
first fetch succeeds. -/
theorem pipeline_success_witness :
    lookupQuery [("query", "wireless charging")] = some "wireless charging" ∧
    search_articles (demoEnv.searchNet "wireless charging") =
      some ["https://a", "https://b"] ∧
    (["https://a", "https://b"] : List String) ≠ [] ∧
    ["https://a", "https://b"].filter (goodFetch demoEnv) ≠ [] ∧
    query_handler demoEnv (some [("query", "wireless charging")]) =
      (.ok (generate_answer demoEnv.llmInstState demoEnv.groqKey demoEnv.chatGroq
          (concatenate_content (fetchLoop demoEnv ["https://a", "https://b"]))
          "wireless charging")
        (["https://a", "https://b"].filter (goodFetch demoEnv)),
       ⟨true, ["https://a", "https://b"], true⟩) :=
  ⟨rfl, rfl, by decide, by decide,
   pipeline_success demoEnv [("query", "wireless charging")] "wireless charging"
     ["https://a", "https://b"] rfl rfl (by decide) (by decide)⟩

/-- C3: on a request with a `query` value, the handler answers `NotFound`
exactly in two cases — "No articles found" iff the search result is falsy
(Python `None` or the empty list), and then no URL is fetched and no
synthesis happens; "Could not fetch any article content" iff the search
produced a non-empty list but every fetch yielded empty content, and then
no synthesis happens; no other `NotFound` message occurs. -/
theorem pipeline_notFound_characterization (env : Env) (d : List (String × String))
    (q : String) (hq : lookupQuery d = some q) :
    ((query_handler env (some d)).1 = .notFound "No articles found" ↔
      (search_articles (env.searchNet q) = none ∨
        search_articles (env.searchNet q) = some [])) ∧
    ((search_articles (env.searchNet q) = none ∨
        search_articles (env.searchNet q) = some []) →
      (query_handler env (some d)).2 = ⟨true, [], false⟩) ∧
    ((query_handler env (some d)).1 = .notFound "Could not fetch any article content" ↔
      ∃ urls, search_articles (env.searchNet q) = some urls ∧ urls ≠ [] ∧
        urls.filter (goodFetch env) = []) ∧
    (∀ urls, search_articles (env.searchNet q) = some urls → urls ≠ [] →
      urls.filter (goodFetch env) = [] →
      (query_handler env (some d)).2.synthCalled = false) ∧
    (∀ m, (query_handler env (some d)).1 = .notFound m →
      m = "No articles found" ∨ m = "Could not fetch any article content") := by
  have hmsg : ("No articles found" : String) ≠ "Could not fetch any article content" := by
    decide
  cases hs : search_articles (env.searchNet q) with
  | none =>
    have hH : query_handler env (some d) =
        (.notFound "No articles found", ⟨true, [], false⟩) := by
      simp [query_handler, hq, hs]
    rw [hH]
    refine ⟨by simp, fun _ => rfl, ?_, ?_, ?_⟩
    · refine iff_of_false (by simp [hmsg]) ?_
      rintro ⟨u, hu, -, -⟩
      exact Option.noConfusion hu
    · rintro urls hu
      exact Option.noConfusion hu
    · intro m hm
      injection hm with hm
      exact Or.inl hm.symm
  | some urls =>
    cases urls with
    | nil =>
      have hH : query_handler env (some d) =
          (.notFound "No articles found", ⟨true, [], false⟩) := by
        simp [query_handler, hq, hs]
      rw [hH]
      refine ⟨by simp, fun _ => rfl, ?_, ?_, ?_⟩
      · refine iff_of_false (by simp [hmsg]) ?_
        rintro ⟨u, hu, hne, -⟩
        injection hu with hu
        exact hne hu.symm
      · rintro urls hu hne -
        injection hu with hu
        exact absurd hu.symm hne
      · intro m hm
        injection hm with hm
        exact Or.inl hm.symm
    | cons a rest =>
      cases hf : fetchLoop env (a :: rest) with
      | nil =>
        have hfilter : (a :: rest).filter (goodFetch env) = [] :=
          (fetchLoop_eq_nil_iff env (a :: rest)).mp hf
        have hH : query_handler env (some d) =
            (.notFound "Could not fetch any article content",
             ⟨true, a :: rest, false⟩) := by
          simp [query_handler, hq, hs, hf]
        rw [hH]
        refine ⟨?_, ?_, ?_, fun _ _ _ _ => rfl, ?_⟩
        · refine iff_of_false (by simp [hmsg.symm]) ?_
          rintro (hu | hu)
          · exact Option.noConfusion hu
          · injection hu with hu
            exact List.noConfusion hu
        · rintro (hu | hu)
          · exact Option.noConfusion hu
          · injection hu with hu
            exact List.noConfusion hu
        · refine iff_of_true rfl ⟨a :: rest, rfl, by simp, hfilter⟩
        · intro m hm
          injection hm with hm
          exact Or.inr hm.symm
      | cons x xs =>
        have hH : query_handler env (some d) =
            (.ok (generate_answer env.llmInstState env.groqKey env.chatGroq
                (concatenate_content (x :: xs)) q) ((x :: xs).map Article.url),
             ⟨true, a :: rest, true⟩) := by
          simp [query_handler, hq, hs, hf]
        rw [hH]
        refine ⟨iff_of_false (by simp) ?_, ?_, iff_of_false (by simp) ?_, ?_, ?_⟩
        · rintro (hu | hu)
          · exact Option.noConfusion hu
          · injection hu with hu
            exact List.noConfusion hu
        · rintro (hu | hu)
          · exact Option.noConfusion hu
          · injection hu with hu
            exact List.noConfusion hu
        · rintro ⟨u, hu, -, hfil⟩
          injection hu with hu
          subst hu
          have := (fetchLoop_eq_nil_iff env (a :: rest)).mpr hfil
          rw [hf] at this
          exact List.noConfusion this
        · rintro urls hu hne hfil
          injection hu with hu
          subst hu
          have := (fetchLoop_eq_nil_iff env (a :: rest)).mpr hfil
          rw [hf] at this
          exact List.noConfusion this
        · intro m hm
          exact HandlerResult.noConfusion hm

/-- C3 witness: the characterization applied to the concrete environment
whose search yields an empty `organic` array (the first `NotFound`
branch). -/
theorem pipeline_notFound_characterization_witness :
    lookupQuery [("query", "nothing")] = some "nothing" ∧
    ((query_handler emptySearchEnv (some [("query", "nothing")])).1 =
        .notFound "No articles found" ↔
      (search_articles (emptySearchEnv.searchNet "nothing") = none ∨
        search_articles (emptySearchEnv.searchNet "nothing") = some [])) ∧
    (query_handler emptySearchEnv (some [("query", "nothing")])).2 =
      ⟨true, [], false⟩ :=
  ⟨rfl,
   (pipeline_notFound_characterization emptySearchEnv [("query", "nothing")]
     "nothing" rfl).1,
   (pipeline_notFound_characterization emptySearchEnv [("query", "nothing")]
     "nothing" rfl).2.1 (Or.inr rfl)⟩


end Backend
